import Mathlib

/-!
Verification development for the MycoCosm genome downloader
(`mycocosm_genome_downloader.py` and the `mycocosm_downloader` package).

The Python program is shallowly embedded: Python strings become `String`
(backed by `List Char`), Python dicts keyed by project code become
association lists, Python exceptions (`KeyError`, `ValueError`, `exit`)
become `Except String`, and parsed `datetime` timestamps become `Int`
instants (the program only ever compares them with `>`).  Pure helper
functions are translated line by line from the source; every `def` below
names the source construct it embeds.
-/

namespace MGD

/-! ### Python string primitives

Lean's own `String.splitOn`/`String.trim` do not reduce well inside the
kernel, so the exact Python `str` operations used by the source
(`split(" ")`, `strip()`, `in`, `endswith`-style slicing, `lower()`)
are re-implemented structurally over `List Char`. -/

/-- Python's ASCII whitespace set, as stripped by `str.strip()`. -/
def isPySpace (c : Char) : Bool :=
  c = ' ' || c = '\t' || c = '\n' || c = '\r' || c = '\x0b' || c = '\x0c'

/-- Python `label.strip()`. -/
def pyStrip (l : List Char) : List Char :=
  ((l.dropWhile isPySpace).reverse.dropWhile isPySpace).reverse

/-- Python `s.split(sep)` for a one-character separator: splits on every
occurrence, keeping empty fields; the result is always nonempty. -/
def splitOnChar (sep : Char) : List Char → List (List Char)
  | [] => [[]]
  | c :: rest =>
    match splitOnChar sep rest with
    | [] => [[c]]
    | h :: t => if c = sep then [] :: h :: t else (c :: h) :: t

/-- Python `pat in s` (substring containment). -/
def containsSub (pat : List Char) (l : List Char) : Bool :=
  match l with
  | [] => pat.isPrefixOf []
  | _ :: rest => pat.isPrefixOf l || containsSub pat rest

/-- Python `s[-n:] == p` for `n = p.length`, i.e. "the string ends with `p`"
(when `s` is shorter than `p` both sides agree on `false`). -/
def strEndsWith (s p : String) : Bool :=
  List.isSuffixOf p.toList s.toList

/-- Python `p in s` on strings. -/
def strContainsStr (s p : String) : Bool :=
  containsSub p.toList s.toList

/-- Python `s.lower()` (the filenames involved are ASCII). -/
def strToLower (s : String) : String :=
  String.mk (s.toList.map Char.toLower)

/-! ### Constant tables from the source (module-level literals) -/

/-- `ALT_TAXID`: TaxIds that need manual correction. -/
def ALT_TAXID : List (String × String) :=
  [("1140396", "2735509"), ("585595", "2587404"),
   ("5145", "2587412"), ("1437435", "2211651")]

/-- `PORTALS_TO_REMOVE`: metaprojects or old versions to exclude. -/
def PORTALS_TO_REMOVE : List String :=
  ["Aciri1_meta", "Altbr1", "Pospl1", "Rhoto_IFO0880_2"]

/-- `MANUAL_PROJECT_NAMES`: project shortname to organism name overrides
(encoding fixes for some species). -/
def MANUAL_PROJECT_NAMES : List (String × String) :=
  [("Boledp1", "Boletus edulis Přilba v1.0"),
   ("Rusoch1", "Russula ochroleuca Přilba v1.0"),
   ("Amarub1", "Amanita rubescens Přilba v1.0"),
   ("Ruseme1", "Russula emetica Přilba v1.0")]

/-- `EXCLUDE_ASSEMBLIES`: assembly filenames to ignore. -/
def EXCLUDE_ASSEMBLIES : List String :=
  ["1034997.Tuber_borchii_Tbo3840.standard.main.scaffolds.fasta.gz",
   "Spofi1.draft.mito.scaffolds.fasta.gz",
   "Patat1.draft.mito.scaffolds.fasta.gz",
   "PleosPC9_1_Assembly_scaffolds.fasta.gz",
   "Neuhi1_PlasmidAssemblyScaffolds.fasta.gz",
   "CocheC5_1_assembly_scaffolds.fasta.gz",
   "Alternaria_brassicicola_masked_assembly.fasta.gz",
   "Aciri1_meta_AssemblyScaffolds.fasta.gz",
   "Rhoto_IFO0880_2_AssemblyScaffolds.fasta.gz",
   "StenotrophomonasSp_AssemblyScaffolds.fasta.gz",
   "PseudomonasSp_AssemblyScaffolds.fasta.gz",
   "EurotioJF034F_1_RiboAssemblyScaffolds.fasta.gz"]

/-- `IGNORE_GFF_FILENAMES`: GFF filenames to ignore. -/
def IGNORE_GFF_FILENAMES : List String :=
  ["Aciri1_meta_GeneCatalog_genes_20111216.gff.gz",
   "Exoaq1_GeneCatalog_20160901.gff3.gz",
   "Exoaq1_GeneCatalog_20160828.gff3.gz",
   "Fonpe1_GeneCatalog_20160901.gff3.gz",
   "Copmic2_FM1_removed_alleles.gff.gz"]

/-! ### Data model -/

/-- `JGI_Project`: one record per sequencing project (portal), as built by
`read_mycocosm_csv` and mutated by the annotation passes.  The NCBI lineage
fields are filled by an external taxonomy service (out of scope) and play no
role in the embedded operations, so they are omitted.  `org_name` is
`Option String` because Python's `remove_version` can raise `IndexError`
(see `remove_version` below); `gff_timestamp` is the parsed `datetime`
as an `Int` instant (Python starts it as `""` and only compares it after
`gff_file` has been set, so the default `0` is never consulted). -/
structure JGI_Project where
  TaxId : String := ""
  portal : String := ""
  name : String := ""
  org_name : Option String := none
  assembly_file : String := ""
  assembly_url : String := ""
  assembly_size : Nat := 0
  gff_file : String := ""
  gff_url : String := ""
  gff_timestamp : Int := 0
  gff_size : Nat := 0
  is_restricted : Bool := false
  deriving DecidableEq, Repr

/-- The `organisms_csv` dict: an association list keyed by portal code. -/
abbrev Catalog := List (String × JGI_Project)

/-- Python `organisms_csv[portal]` lookup (first binding wins, as in a dict
with unique keys). -/
def Catalog.find? (c : Catalog) (p : String) : Option JGI_Project :=
  List.lookup p c

/-- In-place mutation of the record bound to key `p`
(`organisms_csv[portal].field = ...`): the binding of `p` — dict keys are
unique, so the first one — is replaced.  A missing key leaves the catalog
unchanged; the callers below only use it after a successful lookup. -/
def catUpdate (c : Catalog) (p : String) (f : JGI_Project → JGI_Project) : Catalog :=
  match c with
  | [] => []
  | (k, v) :: t => if k = p then (k, f v) :: t else (k, v) :: catUpdate t p f

/-- A file entry from an assembly subtree of the XML listing:
`filename`, `url` and `sizeInBytes` attributes. -/
structure AsmEntry where
  filename : String := ""
  url : String := ""
  sizeInBytes : Nat := 0
  deriving DecidableEq, Repr

/-- A file entry from the gene-annotation ("Genes") subtree.  `timestamp`
is the file-modification instant obtained from the US-locale string via the
`US_DAY_NUMBERS`/`US_MONTH_NUMBERS`/`US_TIMEZONES` tables and
`datetime.strptime`; the program only compares these instants with `>`,
so the parsed value is embedded directly as an `Int`. -/
structure GffEntry where
  filename : String := ""
  url : String := ""
  sizeInBytes : Nat := 0
  timestamp : Int := 0
  deriving DecidableEq, Repr

/-- `url.split("/")[2]`: the project code embedded in an entry's URL.
Python raises `IndexError` on a URL with fewer than three components; the
listings always carry well-formed locators and no claim exercises that
case, so the embedding returns `""` there. -/
def url_portal (url : String) : String :=
  match splitOnChar '/' url.toList with
  | _ :: _ :: p :: _ => String.mk p
  | _ => ""

/-! ### Gene-annotation selection (`annotate_gff`) -/

/-- Mutable state threaded through `annotate_projects`: the catalog plus the
two auxiliary collections `gff_filenames` (a `defaultdict(list)` of found
candidates, flattened here to `(portal, filename, timestamp)` triples in
encounter order) and `skipped_gffs` (a set, kept in insertion order). -/
structure GffScanState where
  catalog : Catalog
  found : List (String × String × Int) := []
  skipped : List String := []
  deriving DecidableEq

/-- The four assignments `org.gff_file/gff_url/gff_timestamp/gff_size = ...`
performed whenever `annotate_gff` accepts a candidate. -/
def gffSet (e : GffEntry) (o : JGI_Project) : JGI_Project :=
  { o with gff_file := e.filename, gff_url := e.url,
           gff_timestamp := e.timestamp, gff_size := e.sizeInBytes }

/-- Condition 3 of `annotate_gff`: filename contains (case-insensitively)
"proteins", "secondary_alleles" or "promoter_regions". -/
def gffSkipKeywords (f : String) : Bool :=
  strContainsStr (strToLower f) "proteins" ||
  strContainsStr (strToLower f) "secondary_alleles" ||
  strContainsStr (strToLower f) "promoter_regions"

/-- Condition 4 of `annotate_gff`, exactly as coded:
`filename[-6:] == "gtf.gz" or filename[-3:] == "tgz" or filename[-2:] != "gz"`. -/
def gffBadSuffix (f : String) : Bool :=
  strEndsWith f "gtf.gz" || strEndsWith f "tgz" || !(strEndsWith f "gz")

/-- The running-best update of `annotate_gff` (source lines 885-918) for a
candidate that survived all skip conditions: first candidate is recorded;
`.gff3.gz` replaces `.gff.gz`; within the same suffix class a strictly later
timestamp wins; a `.gff.gz` never replaces a `.gff3.gz`; any other
combination is the "unexpected case" diagnostic, selection unchanged. -/
def gffUpdateRule (e : GffEntry) (o : JGI_Project) : JGI_Project :=
  if o.gff_file = "" then gffSet e o
  else if strEndsWith e.filename "gff3.gz" && strEndsWith o.gff_file "gff.gz" then
    gffSet e o
  else if (strEndsWith e.filename "gff3.gz" && strEndsWith o.gff_file "gff3.gz")
       || (strEndsWith e.filename "gff.gz" && strEndsWith o.gff_file "gff.gz") then
    if o.gff_timestamp < e.timestamp then gffSet e o else o
  else if strEndsWith e.filename "gff.gz" && strEndsWith o.gff_file "gff3.gz" then
    o
  else
    o

/-- One iteration of the `annotate_gff` loop over the descendants of the
"Genes" node.  `org = organisms_csv[portal]` raises `KeyError` when the
embedded project code is absent from the catalog (the source has no
`try/except` here), embedded as `Except.error`. -/
def annotate_gff_entry (hard : List (String × String)) (st : GffScanState)
    (e : GffEntry) : Except String GffScanState :=
  if url_portal e.url ∈ PORTALS_TO_REMOVE then .ok st
  else
    match st.catalog.find? (url_portal e.url) with
    | none => .error ("KeyError: " ++ url_portal e.url)
    | some _ =>
      match List.lookup (url_portal e.url) hard with
      | some hg =>
        if e.filename = hg then
          .ok { catalog := catUpdate st.catalog (url_portal e.url) (gffSet e),
                found := st.found ++ [(url_portal e.url, e.filename, e.timestamp)],
                skipped := st.skipped }
        else
          .ok { catalog := st.catalog,
                found := st.found ++ [(url_portal e.url, e.filename, e.timestamp)],
                skipped := st.skipped ++ [e.filename] }
      | none =>
        if e.filename ∈ IGNORE_GFF_FILENAMES then
          .ok { catalog := st.catalog,
                found := st.found ++ [(url_portal e.url, e.filename, e.timestamp)],
                skipped := st.skipped ++ [e.filename] }
        else if gffSkipKeywords e.filename then
          .ok { catalog := st.catalog,
                found := st.found ++ [(url_portal e.url, e.filename, e.timestamp)],
                skipped := st.skipped ++ [e.filename] }
        else if gffBadSuffix e.filename then
          .ok { catalog := st.catalog,
                found := st.found ++ [(url_portal e.url, e.filename, e.timestamp)],
                skipped := st.skipped ++ [e.filename] }
        else
          .ok { catalog := catUpdate st.catalog (url_portal e.url) (gffUpdateRule e),
                found := st.found ++ [(url_portal e.url, e.filename, e.timestamp)],
                skipped := st.skipped }

/-- `annotate_gff`: the full scan over the Genes-subtree entries. -/
def annotate_gff (hard : List (String × String)) (st : GffScanState) :
    List GffEntry → Except String GffScanState
  | [] => .ok st
  | e :: rest =>
    match annotate_gff_entry hard st e with
    | .error msg => .error msg
    | .ok st' => annotate_gff hard st' rest

/-- The annotation selection currently recorded for portal `p`
(`organisms_csv[p].gff_file`, or `""` when `p` is not in the catalog). -/
def selOf (st : GffScanState) (p : String) : String :=
  match st.catalog.find? p with
  | some o => o.gff_file
  | none => ""

/-! ### Assembly selection (`annotate_assembly` / `annotate_missing`) -/

/-- The shared skip filter of both assembly scans (source lines 727-736):
partial-assembly markers, the exact-filename exclusion set, excluded project
codes, and `.txt` entries. -/
def asmExcluded (filename portal : String) : Bool :=
  strContainsStr filename "MitoAssembly" ||
  strContainsStr filename "MitoScaffolds" ||
  strContainsStr filename "PrimaryAssemblyScaffolds" ||
  strContainsStr filename "SecondaryAssemblyScaffolds" ||
  EXCLUDE_ASSEMBLIES.contains filename ||
  PORTALS_TO_REMOVE.contains portal ||
  strEndsWith filename "txt"

/-- The three assignments `organisms_csv[portal].assembly_* = ...`. -/
def asmSet (e : AsmEntry) (o : JGI_Project) : JGI_Project :=
  { o with assembly_file := e.filename, assembly_url := e.url,
           assembly_size := e.sizeInBytes }

/-- One iteration of `annotate_assembly` (unmasked scan).  The assignment is
wrapped in `try/except KeyError` in the source: an unknown project code
prints a warning and skips the entry, leaving the catalog unchanged. -/
def annotate_assembly_entry (cat : Catalog) (e : AsmEntry) : Catalog :=
  if asmExcluded e.filename (url_portal e.url) then cat
  else
    match cat.find? (url_portal e.url) with
    | none => cat
    | some _ => catUpdate cat (url_portal e.url) (asmSet e)

/-- `annotate_assembly`: scan of all entries under "Genome Assembly
(unmasked)".  (The `duplicated_names` multiplicity bookkeeping only feeds
warning output and is not modelled.) -/
def annotate_assembly (cat : Catalog) (entries : List AsmEntry) : Catalog :=
  entries.foldl annotate_assembly_entry cat

/-- One iteration of `annotate_missing` (masked fallback scan).  Unlike
`annotate_assembly_entry` the source indexes `organisms_csv[portal]` with no
`try/except`, so an unknown project code raises `KeyError`. -/
def annotate_missing_entry (cat : Catalog) (e : AsmEntry) :
    Except String Catalog :=
  if asmExcluded e.filename (url_portal e.url) then .ok cat
  else
    match cat.find? (url_portal e.url) with
    | none => .error ("KeyError: " ++ url_portal e.url)
    | some _ => .ok (catUpdate cat (url_portal e.url) (asmSet e))

/-- `annotate_missing`: scan of all entries under "Genome Assembly (masked)". -/
def annotate_missing (cat : Catalog) : List AsmEntry → Except String Catalog
  | [] => .ok cat
  | e :: rest =>
    match annotate_missing_entry cat e with
    | .error msg => .error msg
    | .ok cat' => annotate_missing cat' rest

/-! ### Per-portal file-listing resolution (`annotate_projects`) -/

/-- The relevant subtrees located by the folder scan at the top of the
`annotate_projects` loop body: the optional "Genome Assembly (unmasked)" and
"(masked)" collections under "Assembly", and the optional
Filtered Models ("best") → "Genes" collection under the annotation folder.
A `none` field corresponds to the matching node never being found. -/
structure FilesNode where
  asm_unmasked : Option (List AsmEntry) := none
  asm_masked : Option (List AsmEntry) := none
  genes : Option (List GffEntry) := none
  deriving DecidableEq

/-- One `organismDownloads` element of the XML: the portal name attribute
and its optional "Files" child. -/
structure PortalNode where
  portal : String := ""
  files : Option FilesNode := none
  deriving DecidableEq

/-- The body of the `annotate_projects` loop for one portal node
(source lines 623-684): a missing "Files" node skips the portal
(non-fatal); a missing unmasked-assembly node raises `ValueError`;
when the unmasked scan leaves `assembly_file` empty the masked collection,
if present, is scanned as fallback; a missing Genes node skips the gff
annotation with a warning. -/
def annotate_portal_node (hard : List (String × String)) (st : GffScanState)
    (node : PortalNode) : Except String GffScanState :=
  match node.files with
  | none => .ok st
  | some fs =>
    match fs.asm_unmasked with
    | none => .error ("ValueError: Portal " ++ node.portal ++
        ": Could not find Genome Assembly (unmasked) node.")
    | some um =>
      let cat1 := annotate_assembly st.catalog um
      match cat1.find? node.portal with
      | none => .error ("KeyError: " ++ node.portal)
      | some org =>
        let step2 : Except String Catalog :=
          if org.assembly_file = "" then
            match fs.asm_masked with
            | none => .ok cat1
            | some mk => annotate_missing cat1 mk
          else .ok cat1
        match step2 with
        | .error msg => .error msg
        | .ok cat2 =>
          match fs.genes with
          | none => .ok { st with catalog := cat2 }
          | some g => annotate_gff hard { st with catalog := cat2 } g

/-- `annotate_projects`: the loop over all `organismDownloads` nodes.
(Children with other tags are skipped by the source before this loop, and
the trailing diagnostics-report writing is file output.) -/
def annotate_projects (hard : List (String × String)) (st : GffScanState) :
    List PortalNode → Except String GffScanState
  | [] => .ok st
  | n :: rest =>
    match annotate_portal_node hard st n with
    | .error msg => .error msg
    | .ok st' => annotate_projects hard st' rest

/-! ### Catalog building (`read_mycocosm_csv` row processing) -/

/-- `remove_version` (source lines 419-433; the packaged
`mycocosm_downloader.utils.remove_version` is the same function with
`suffix[0].lower() == "v"` in place of the two-way comparison).  Python
indexes `suffix[0]` and — only when the first comparison succeeds, because
`and` short-circuits — `suffix[1]`; each out-of-range index raises
`IndexError`, embedded as `none`. -/
def remove_version (label : String) : Option String :=
  match (splitOnChar ' ' (pyStrip label.toList)).getLastD [] with
  | [] => none
  | [c] => if c = 'v' || c = 'V' then none else some label
  | c :: c1 :: rest =>
    if (c = 'v' || c = 'V') && c1.isDigit && ((c1 :: rest).getLastD c1).isDigit then
      some (String.mk
        (List.intercalate [' '] (splitOnChar ' ' (pyStrip label.toList)).dropLast))
    else some label

/-- The stripped label's last space-delimited field
(`label.strip().split(" ")[-1]`), used to state facts about
`remove_version`. -/
def lastToken (label : String) : List Char :=
  (splitOnChar ' ' (pyStrip label.toList)).getLastD []

/-- One row of `MycoCosm_Genome_list.csv` as consumed by
`read_mycocosm_csv`: the "NCBI Taxon", "portal", "name" and "is restricted"
columns. -/
structure CsvRow where
  ncbiTaxon : String := ""
  portal : String := ""
  name : String := ""
  isRestricted : String := ""
  deriving DecidableEq

/-- The per-row record construction of `read_mycocosm_csv` (source lines
490-532): TaxId correction through `ALT_TAXID`, the manual display-name
override through `MANUAL_PROJECT_NAMES`, and
`fungus.org_name = remove_version(fullname)` — note the argument is the raw
CSV `name` column, not the possibly-overridden `fungus.name`.  The NCBI
lineage lookup and placement-path derivation touch only fields not modelled
here. -/
def build_project (row : CsvRow) : JGI_Project :=
  { TaxId :=
      match List.lookup row.ncbiTaxon ALT_TAXID with
      | some t => t
      | none => row.ncbiTaxon
    portal := row.portal
    name :=
      match List.lookup row.portal MANUAL_PROJECT_NAMES with
      | some n => n
      | none => row.name
    org_name := remove_version row.name
    is_restricted := row.isRestricted = "Y" }

/-! ### Download planning (the file loop of `main`, source lines 1095-1199) -/

/-- An external call the planner performs for one file: `shutil.copy` from a
prior-run location, or a `download_file` transfer (attempted whether or not
it succeeds). -/
inductive PlanAction where
  | copyFile
  | downloadFile
  deriving DecidableEq, Repr

/-- The run counters of `main` plus a log of external calls made. -/
structure PlanState where
  needed : Nat := 0
  copied : Nat := 0
  downloaded : Nat := 0
  pre_existing : Nat := 0
  in_previous : Nat := 0
  actions : List PlanAction := []
  deriving DecidableEq, Repr

/-- The environment one target file meets: its on-disk size if the planned
local path exists, whether its filename is in the prior-locations index, and
the outcomes the external copy/transfer collaborators would produce. -/
structure FileEnv where
  on_disk_size : Option Nat := none
  in_previous : Bool := false
  copy_ok : Bool := true
  download_ok : Bool := true
  deriving DecidableEq, Repr

/-- The pre-existing test `path.is_file() and path.stat().st_size >
0.9 * expected_size`.  Python compares against the IEEE double `0.9 *
expected`; for integer sizes below 10^15 that double comparison coincides
with the exact rational comparison `st_size > 9/10 * expected`, embedded
here as `9 * expected < 10 * st_size` (in particular `0.9 * n` rounds to
exactly `9n/10` whenever `10 ∣ n`). -/
def preexisting_ok (env : FileEnv) (expected : Nat) : Bool :=
  match env.on_disk_size with
  | some sz => 9 * expected < 10 * sz
  | none => false

/-- The per-file decision chain of `main` (identical for the assembly and
the gff file): pre-existing ⇒ count only; in the prior index ⇒ count in
simulate mode, else copy (a failed copy calls `exit`, embedded as
`Except.error`); otherwise, outside simulate mode, attempt the download and
count it only on success (a failed download just prints a warning); in
simulate mode the fetch branch does nothing. -/
def process_file (simulate : Bool) (env : FileEnv) (expected : Nat)
    (st : PlanState) : Except String PlanState :=
  if preexisting_ok env expected then
    .ok { st with pre_existing := st.pre_existing + 1 }
  else if env.in_previous then
    if simulate then .ok { st with in_previous := st.in_previous + 1 }
    else if env.copy_ok then
      .ok { st with copied := st.copied + 1, actions := st.actions ++ [.copyFile] }
    else .error "Error: cannot copy"
  else if simulate then .ok st
  else if env.download_ok then
    .ok { st with downloaded := st.downloaded + 1,
                  actions := st.actions ++ [.downloadFile] }
  else .ok { st with actions := st.actions ++ [.downloadFile] }

/-- One portal with its resolved record and the environments of its two
target files, as seen by the download loop. -/
structure PortalPlan where
  portal : String := ""
  fungus : JGI_Project := {}
  asm_env : FileEnv := {}
  gff_env : FileEnv := {}
  deriving DecidableEq

/-- The per-portal body of the download loop: skip restricted portals when
`-r` is off, skip portals on the user exclusion list, report-and-skip
portals missing one of the two selections (contributing to neither side of
the accounting), otherwise count two needed files and run the per-file
decision on the assembly and then the gff file. -/
def process_portal (simulate use_restricted : Bool) (exclude : List String)
    (st : PlanState) (p : PortalPlan) : Except String PlanState :=
  if !use_restricted && p.fungus.is_restricted then .ok st
  else if p.portal ∈ exclude then .ok st
  else if p.fungus.assembly_file = "" || p.fungus.gff_file = "" then .ok st
  else
    match process_file simulate p.asm_env p.fungus.assembly_size
        { st with needed := st.needed + 2 } with
    | .error msg => .error msg
    | .ok st' => process_file simulate p.gff_env p.fungus.gff_size st'

/-- The whole download loop over the catalog. -/
def download_loop (simulate use_restricted : Bool) (exclude : List String)
    (st : PlanState) : List PortalPlan → Except String PlanState
  | [] => .ok st
  | p :: rest =>
    match process_portal simulate use_restricted exclude st p with
    | .error msg => .error msg
    | .ok st' => download_loop simulate use_restricted exclude st' rest

/-! ### Proof devices and concrete evaluation data

The remaining definitions are not source translations: `selInv` is an
invariant used by the monotonicity proofs, `okOr` extracts the state of a
successful scan, and the `w...` values are small concrete inputs on which
the theorems below are instantiated. -/

/-- Invariant of the gff scan for portal `p`: the running selection is
either still empty or, when a hardcoded override exists for `p`, equal to
the override filename.  It holds at the start of a pass (empty selection)
and is preserved by every scan step. -/
def selInv (hard : List (String × String)) (p : String) (st : GffScanState) : Prop :=
  selOf st p = "" ∨ ∀ hg, List.lookup p hard = some hg → selOf st p = hg

/-- The result of a run known to have succeeded. -/
def okOr {α : Type} (x : Except String α) (d : α) : α :=
  match x with
  | .ok s => s
  | .error _ => d

/-- A catalog with the single portal "Abcde1" and empty selections. -/
def wProj : JGI_Project := { portal := "Abcde1" }

/-- Concrete catalog used by the evaluation theorems. -/
def wCat : Catalog := [("Abcde1", wProj)]

/-- Concrete initial scan state. -/
def wSt0 : GffScanState := { catalog := wCat }

/-- A `.gff3.gz` candidate for "Abcde1" with timestamp 5. -/
def wG1 : GffEntry :=
  { filename := "Abcde1_GeneCatalog_20140101.gff3.gz",
    url := "/fungi/Abcde1/download/Abcde1_GeneCatalog_20140101.gff3.gz",
    sizeInBytes := 11, timestamp := 5 }

/-- A later `.gff.gz` candidate for "Abcde1" (timestamp 99). -/
def wG2 : GffEntry :=
  { filename := "Abcde1_GeneCatalog_20150101.gff.gz",
    url := "/fungi/Abcde1/download/Abcde1_GeneCatalog_20150101.gff.gz",
    sizeInBytes := 12, timestamp := 99 }

/-- A second `.gff3.gz` candidate for "Abcde1" with timestamp 50. -/
def wG3 : GffEntry :=
  { filename := "Abcde1_GeneCatalog_20160101.gff3.gz",
    url := "/fungi/Abcde1/download/Abcde1_GeneCatalog_20160101.gff3.gz",
    sizeInBytes := 13, timestamp := 50 }

/-- State after scanning `[wG1]` from `wSt0`. -/
def wSt1 : GffScanState := okOr (annotate_gff [] wSt0 [wG1]) wSt0

/-- State after additionally scanning `[wG2]`. -/
def wSt2 : GffScanState := okOr (annotate_gff [] wSt1 [wG2]) wSt0

/-- A hardcoded override table for "Abcde1". -/
def wHard : List (String × String) := [("Abcde1", "Abcde1_over.gff3.gz")]

/-- The override candidate (older timestamp). -/
def wO1 : GffEntry :=
  { filename := "Abcde1_over.gff3.gz",
    url := "/fungi/Abcde1/download/Abcde1_over.gff3.gz",
    sizeInBytes := 5, timestamp := 1 }

/-- A non-override candidate (newer timestamp). -/
def wO2 : GffEntry :=
  { filename := "Abcde1_other.gff3.gz",
    url := "/fungi/Abcde1/download/Abcde1_other.gff3.gz",
    sizeInBytes := 6, timestamp := 9 }

/-- State after scanning the override pair under `wHard`. -/
def wStO : GffScanState := okOr (annotate_gff wHard wSt0 [wO1, wO2]) wSt0

/-- A gene-annotation candidate that survives every skip condition yet ends
in `.fasta.gz` rather than `.gff.gz`/`.gff3.gz`. -/
def wFasta : GffEntry :=
  { filename := "Abcde1_GeneCatalog.fasta.gz",
    url := "/fungi/Abcde1/download/Abcde1_GeneCatalog.fasta.gz",
    sizeInBytes := 3, timestamp := 1 }

/-- A gene-annotation entry whose embedded project code "Mystery1" is not a
catalog key. -/
def wUnk : GffEntry :=
  { filename := "Mystery1_GeneCatalog.gff3.gz",
    url := "/fungi/Mystery1/download/Mystery1_GeneCatalog.gff3.gz",
    sizeInBytes := 4, timestamp := 2 }

/-- An assembly entry whose embedded project code "Mystery1" is not a
catalog key. -/
def wUnkAsm : AsmEntry :=
  { filename := "Mystery1_AssemblyScaffolds.fasta.gz",
    url := "/fungi/Mystery1/download/Mystery1_AssemblyScaffolds.fasta.gz",
    sizeInBytes := 7 }

/-- A portal node whose Files subtree lacks the unmasked-assembly node. -/
def wNodeBad : PortalNode := { portal := "Abcde1", files := some {} }

/-- A well-formed portal node: unmasked node present (no entries survive),
no masked fallback, no Genes node. -/
def wNodeOK : PortalNode :=
  { portal := "Abcde1", files := some { asm_unmasked := some [] } }

/-- A planning record whose two files are neither on disk nor in the
prior index. -/
def wPlanMiss : PortalPlan :=
  { portal := "P1",
    fungus := { assembly_file := "P1_Assembly.fasta.gz",
                gff_file := "P1_GeneCatalog.gff3.gz",
                assembly_size := 100, gff_size := 50 } }

/-- A planning record whose assembly file is already on disk at full size
and whose gff file must be downloaded. -/
def wPlanPre : PortalPlan :=
  { portal := "P2",
    fungus := { assembly_file := "P2_Assembly.fasta.gz",
                gff_file := "P2_GeneCatalog.gff3.gz",
                assembly_size := 10, gff_size := 10 },
    asm_env := { on_disk_size := some 10 } }

/-- Final planner state for a one-portal non-simulate run over `wPlanPre`. -/
def wPlanOut : PlanState := okOr (download_loop false false [] {} [wPlanPre]) {}

/-- The CSV row of portal "Boledp1", whose raw name column carries the
mojibake the manual override corrects. -/
def wRow : CsvRow :=
  { ncbiTaxon := "290", portal := "Boledp1",
    name := "Boletus edulis Prilba v1.0", isRestricted := "N" }

/-- A CSV row of a portal without a manual display-name override. -/
def wRowPlain : CsvRow :=
  { ncbiTaxon := "77", portal := "Plainp1",
    name := "Plain fungus v2.0", isRestricted := "N" }

/-! ### Suffix arithmetic on filenames -/

theorem strEndsWith_iff {s p : String} :
    strEndsWith s p = true ↔ p.toList <:+ s.toList := by
  simp [strEndsWith, List.isSuffixOf_iff_suffix]

theorem ends_false_shorter {s p q : String} (hp : strEndsWith s p = true)
    (hlen : q.toList.length ≤ p.toList.length)
    (hnsub : ¬ q.toList <:+ p.toList) : strEndsWith s q = false := by
  cases hq : strEndsWith s q with
  | false => rfl
  | true =>
    exact absurd
      (List.suffix_of_suffix_length_le (strEndsWith_iff.mp hq)
        (strEndsWith_iff.mp hp) hlen) hnsub

theorem ends_false_longer {s p q : String} (hp : strEndsWith s p = true)
    (hlen : p.toList.length ≤ q.toList.length)
    (hnsub : ¬ p.toList <:+ q.toList) : strEndsWith s q = false := by
  cases hq : strEndsWith s q with
  | false => rfl
  | true =>
    exact absurd
      (List.suffix_of_suffix_length_le (strEndsWith_iff.mp hp)
        (strEndsWith_iff.mp hq) hlen) hnsub

theorem ends_of_ends {s p q : String} (hp : strEndsWith s p = true)
    (hsub : q.toList <:+ p.toList) : strEndsWith s q = true :=
  strEndsWith_iff.mpr (hsub.trans (strEndsWith_iff.mp hp))

/-- A `.gff3.gz` filename does not satisfy the `.gff.gz` slice test. -/
theorem gff3_not_gff {s : String} (h : strEndsWith s "gff3.gz" = true) :
    strEndsWith s "gff.gz" = false :=
  ends_false_shorter h (by decide) (by decide)

/-- A `.gff.gz` filename does not satisfy the `.gff3.gz` slice test. -/
theorem gff_not_gff3 {s : String} (h : strEndsWith s "gff.gz" = true) :
    strEndsWith s "gff3.gz" = false :=
  ends_false_longer h (by decide) (by decide)

/-- A `.gff3.gz` filename passes condition 4 of `annotate_gff`. -/
theorem gffBadSuffix_gff3 {s : String} (h : strEndsWith s "gff3.gz" = true) :
    gffBadSuffix s = false := by
  unfold gffBadSuffix
  rw [ends_false_shorter h (p := "gff3.gz") (q := "gtf.gz") (by decide) (by decide),
      ends_false_shorter h (p := "gff3.gz") (q := "tgz") (by decide) (by decide),
      ends_of_ends h (q := "gz") (by decide)]
  rfl

/-- A `.gff.gz` filename passes condition 4 of `annotate_gff`. -/
theorem gffBadSuffix_gff {s : String} (h : strEndsWith s "gff.gz" = true) :
    gffBadSuffix s = false := by
  unfold gffBadSuffix
  rw [ends_false_shorter h (p := "gff.gz") (q := "gtf.gz") (by decide) (by decide),
      ends_false_shorter h (p := "gff.gz") (q := "tgz") (by decide) (by decide),
      ends_of_ends h (q := "gz") (by decide)]
  rfl

/-- A selection that satisfies the `.gff3.gz` slice test is nonempty. -/
theorem ends_gff3_ne_empty {s : String} (h : strEndsWith s "gff3.gz" = true) :
    ¬ s = "" := by
  intro hs
  rw [hs] at h
  exact absurd h (by decide)

/-! ### Catalog lookup and update -/

theorem find?_catUpdate_self (c : Catalog) (p : String)
    (f : JGI_Project → JGI_Project) :
    (catUpdate c p f).find? p = (c.find? p).map f := by
  induction c with
  | nil => rfl
  | cons kv t ih =>
    obtain ⟨k, v⟩ := kv
    by_cases h : k = p
    · subst h
      simp [Catalog.find?, catUpdate, List.lookup]
    · rw [catUpdate, if_neg h]
      simp only [Catalog.find?, List.lookup] at ih ⊢
      rw [show (p == k) = false by simp [Ne.symm h]]
      exact ih

theorem find?_catUpdate_ne (c : Catalog) {p q : String} (h : q ≠ p)
    (f : JGI_Project → JGI_Project) :
    (catUpdate c p f).find? q = c.find? q := by
  induction c with
  | nil => rfl
  | cons kv t ih =>
    obtain ⟨k, v⟩ := kv
    by_cases hk : k = p
    · subst hk
      rw [catUpdate, if_pos rfl]
      simp only [Catalog.find?, List.lookup]
      rw [show (q == k) = false by simp [h]]
    · rw [catUpdate, if_neg hk]
      simp only [Catalog.find?, List.lookup] at ih ⊢
      cases hqk : (q == k) with
      | true => rfl
      | false => exact ih

theorem selOf_of_catalog_eq {st st' : GffScanState}
    (h : st'.catalog = st.catalog) (p : String) : selOf st' p = selOf st p := by
  simp [selOf, h]

/-! ### The shape of one gff-scan step -/

/-- A successful `annotate_gff_entry` step leaves the catalog unchanged,
or applies the override assignment, or applies the running-best update, at
the entry's own portal. -/
theorem annotate_gff_entry_ok (hard : List (String × String))
    (st : GffScanState) (e : GffEntry) (st' : GffScanState)
    (h : annotate_gff_entry hard st e = .ok st') :
    st'.catalog = st.catalog
    ∨ (∃ hg, List.lookup (url_portal e.url) hard = some hg ∧ e.filename = hg ∧
         st'.catalog = catUpdate st.catalog (url_portal e.url) (gffSet e))
    ∨ (List.lookup (url_portal e.url) hard = none ∧
         st'.catalog = catUpdate st.catalog (url_portal e.url) (gffUpdateRule e)) := by
  unfold annotate_gff_entry at h
  split at h
  · exact Or.inl (by cases h; rfl)
  · split at h
    · cases h
    · split at h
      · rename_i hg hov2
        split at h
        · rename_i hf
          exact Or.inr (Or.inl ⟨_, hov2, hf, by cases h; rfl⟩)
        · exact Or.inl (by cases h; rfl)
      · rename_i hov2
        split at h
        · exact Or.inl (by cases h; rfl)
        · split at h
          · exact Or.inl (by cases h; rfl)
          · split at h
            · exact Or.inl (by cases h; rfl)
            · exact Or.inr (Or.inr ⟨hov2, by cases h; rfl⟩)

/-- The running-best update preserves a `.gff3.gz`-suffixed selection. -/
theorem gffUpdateRule_gff3 (e : GffEntry) (o : JGI_Project)
    (hsel : strEndsWith o.gff_file "gff3.gz" = true) :
    strEndsWith (gffUpdateRule e o).gff_file "gff3.gz" = true := by
  have hne := ends_gff3_ne_empty hsel
  have hng := gff3_not_gff hsel
  by_cases hf3 : strEndsWith e.filename "gff3.gz" = true
  · by_cases ht : o.gff_timestamp < e.timestamp
    · simp [gffUpdateRule, hne, hng, hsel, hf3, ht, gffSet]
    · simp [gffUpdateRule, hne, hng, hsel, hf3, ht]
  · have hf3f : strEndsWith e.filename "gff3.gz" = false := by
      simpa using hf3
    by_cases hfg : strEndsWith e.filename "gff.gz" = true
    · simp [gffUpdateRule, hne, hng, hsel, hf3f, hfg]
    · have hfgf : strEndsWith e.filename "gff.gz" = false := by
        simpa using hfg
      simp [gffUpdateRule, hne, hng, hsel, hf3f, hfgf]

/-- For an empty current selection the running-best update records the
candidate. -/
theorem gffUpdateRule_empty (e : GffEntry) (o : JGI_Project)
    (h : o.gff_file = "") : gffUpdateRule e o = gffSet e o := by
  unfold gffUpdateRule
  rw [if_pos h]

/-- For `.gff3.gz` against `.gff3.gz` the running-best update keeps the
strictly later timestamp. -/
theorem gffUpdateRule_gff3_gff3 (e : GffEntry) (o : JGI_Project)
    (ho : strEndsWith o.gff_file "gff3.gz" = true)
    (he : strEndsWith e.filename "gff3.gz" = true) :
    gffUpdateRule e o = if o.gff_timestamp < e.timestamp then gffSet e o else o := by
  simp [gffUpdateRule, ends_gff3_ne_empty ho, gff3_not_gff ho, ho, he]

/-! ### Invariants of the gff scan -/

theorem selInv_step (hard : List (String × String)) (p : String)
    (st : GffScanState) (e : GffEntry) (st' : GffScanState)
    (hInv : selInv hard p st)
    (h : annotate_gff_entry hard st e = .ok st') : selInv hard p st' := by
  rcases annotate_gff_entry_ok hard st e st' h with
    hsame | ⟨hg, hov, hf, hcat⟩ | ⟨hov, hcat⟩
  · unfold selInv at hInv ⊢
    rw [selOf_of_catalog_eq hsame]
    exact hInv
  · by_cases hq : url_portal e.url = p
    · rw [hq] at hov hcat
      cases hfind : st.catalog.find? p with
      | none =>
        left
        unfold selOf
        rw [hcat, find?_catUpdate_self, hfind]
        rfl
      | some o =>
        right
        intro hg2 hov2
        have heq : hg = hg2 := by
          rw [hov] at hov2
          injection hov2
        subst heq
        unfold selOf
        rw [hcat, find?_catUpdate_self, hfind]
        simpa [gffSet] using hf
    · have hne : selOf st' p = selOf st p := by
        unfold selOf
        rw [hcat, find?_catUpdate_ne _ (Ne.symm hq)]
      unfold selInv at hInv ⊢
      rw [hne]
      exact hInv
  · by_cases hq : url_portal e.url = p
    · rw [hq] at hov
      right
      intro hg2 hov2
      rw [hov] at hov2
      cases hov2
    · have hne : selOf st' p = selOf st p := by
        unfold selOf
        rw [hcat, find?_catUpdate_ne _ (Ne.symm hq)]
      unfold selInv at hInv ⊢
      rw [hne]
      exact hInv

theorem sel_gff3_step (hard : List (String × String)) (p : String)
    (st : GffScanState) (e : GffEntry) (st' : GffScanState)
    (hInv : selInv hard p st)
    (hsel : strEndsWith (selOf st p) "gff3.gz" = true)
    (h : annotate_gff_entry hard st e = .ok st') :
    strEndsWith (selOf st' p) "gff3.gz" = true := by
  rcases annotate_gff_entry_ok hard st e st' h with
    hsame | ⟨hg, hov, hf, hcat⟩ | ⟨hov, hcat⟩
  · rwa [selOf_of_catalog_eq hsame]
  · by_cases hq : url_portal e.url = p
    · rw [hq] at hov hcat
      cases hfind : st.catalog.find? p with
      | none =>
        exfalso
        have h0 : selOf st p = "" := by
          unfold selOf
          rw [hfind]
        rw [h0] at hsel
        exact absurd hsel (by decide)
      | some o =>
        rcases hInv with h0 | hinv2
        · rw [h0] at hsel
          exact absurd hsel (by decide)
        · have hbh : selOf st p = hg := hinv2 hg hov
          have hs' : selOf st' p = e.filename := by
            unfold selOf
            rw [hcat, find?_catUpdate_self, hfind]
            rfl
          rw [hs', hf, ← hbh]
          exact hsel
    · have hne : selOf st' p = selOf st p := by
        unfold selOf
        rw [hcat, find?_catUpdate_ne _ (Ne.symm hq)]
      rwa [hne]
  · by_cases hq : url_portal e.url = p
    · rw [hq] at hcat
      cases hfind : st.catalog.find? p with
      | none =>
        exfalso
        have h0 : selOf st p = "" := by
          unfold selOf
          rw [hfind]
        rw [h0] at hsel
        exact absurd hsel (by decide)
      | some o =>
        have hofile : o.gff_file = selOf st p := by
          unfold selOf
          rw [hfind]
        have hs' : selOf st' p = (gffUpdateRule e o).gff_file := by
          unfold selOf
          rw [hcat, find?_catUpdate_self, hfind]
          rfl
        rw [hs']
        apply gffUpdateRule_gff3
        rw [hofile]
        exact hsel
    · have hne : selOf st' p = selOf st p := by
        unfold selOf
        rw [hcat, find?_catUpdate_ne _ (Ne.symm hq)]
      rwa [hne]

theorem annotate_gff_run_inv (hard : List (String × String)) (p : String) :
    ∀ (l : List GffEntry) (st st' : GffScanState), selInv hard p st →
      annotate_gff hard st l = .ok st' → selInv hard p st' := by
  intro l
  induction l with
  | nil =>
    intro st st' hInv h
    cases h
    exact hInv
  | cons e rest ih =>
    intro st st' hInv h
    cases hstep : annotate_gff_entry hard st e with
    | error msg =>
      rw [annotate_gff, hstep] at h
      cases h
    | ok st1 =>
      rw [annotate_gff, hstep] at h
      exact ih st1 st' (selInv_step hard p st e st1 hInv hstep) h

theorem annotate_gff_run_gff3 (hard : List (String × String)) (p : String) :
    ∀ (l : List GffEntry) (st st' : GffScanState), selInv hard p st →
      strEndsWith (selOf st p) "gff3.gz" = true →
      annotate_gff hard st l = .ok st' →
      strEndsWith (selOf st' p) "gff3.gz" = true := by
  intro l
  induction l with
  | nil =>
    intro st st' _ hsel h
    cases h
    exact hsel
  | cons e rest ih =>
    intro st st' hInv hsel h
    cases hstep : annotate_gff_entry hard st e with
    | error msg =>
      rw [annotate_gff, hstep] at h
      cases h
    | ok st1 =>
      rw [annotate_gff, hstep] at h
      exact ih st1 st' (selInv_step hard p st e st1 hInv hstep)
        (sel_gff3_step hard p st e st1 hInv hsel hstep) h

/-- C1: for every project and every candidate sequence, once the running
selection made by the gff annotation pass — which starts with an empty
selection — is a `.gff3.gz` file, no later `.gff.gz` candidate ever
replaces it, regardless of timestamps and for every ordering of the
candidates: after any further scanning the selection still ends in
`.gff3.gz` and in particular never ends in `.gff.gz`. -/
theorem annotate_gff_format_monotone (hard : List (String × String))
    (p : String) (st0 st1 st2 : GffScanState) (xs ys : List GffEntry)
    (h0 : selOf st0 p = "")
    (h1 : annotate_gff hard st0 xs = .ok st1)
    (h2 : strEndsWith (selOf st1 p) "gff3.gz" = true)
    (h3 : annotate_gff hard st1 ys = .ok st2) :
    strEndsWith (selOf st2 p) "gff3.gz" = true ∧
    strEndsWith (selOf st2 p) "gff.gz" = false := by
  have hinv0 : selInv hard p st0 := Or.inl h0
  have hinv1 := annotate_gff_run_inv hard p xs st0 st1 hinv0 h1
  have hg3 := annotate_gff_run_gff3 hard p ys st1 st2 hinv1 h2 h3
  exact ⟨hg3, gff3_not_gff hg3⟩

/-- Witness for C1 at a concrete input: "Abcde1" selects a `.gff3.gz`
candidate, a later higher-timestamped `.gff.gz` candidate does not
replace it. -/
theorem annotate_gff_format_monotone_witness :
    strEndsWith (selOf wSt2 "Abcde1") "gff3.gz" = true ∧
    strEndsWith (selOf wSt2 "Abcde1") "gff.gz" = false :=
  annotate_gff_format_monotone [] "Abcde1" wSt0 wSt1 wSt2 [wG1] [wG2]
    (by decide) (by rfl) (by decide) (by rfl)

/-! ### Hardcoded overrides -/

theorem step_sel_keeps_override (hard : List (String × String)) (p hg : String)
    (st : GffScanState) (e : GffEntry) (st' : GffScanState)
    (hov : List.lookup p hard = some hg) (hsel : selOf st p = hg)
    (h : annotate_gff_entry hard st e = .ok st') : selOf st' p = hg := by
  rcases annotate_gff_entry_ok hard st e st' h with
    hsame | ⟨hg2, hov2, hf, hcat⟩ | ⟨hov2, hcat⟩
  · rw [selOf_of_catalog_eq hsame]
    exact hsel
  · by_cases hq : url_portal e.url = p
    · rw [hq] at hov2 hcat
      have heq : hg2 = hg := by
        rw [hov] at hov2
        injection hov2 with h'
        exact h'.symm
      subst heq
      cases hfind : st.catalog.find? p with
      | none =>
        have h0 : selOf st p = "" := by
          unfold selOf
          rw [hfind]
        unfold selOf
        rw [hcat, find?_catUpdate_self, hfind]
        rw [h0] at hsel
        exact hsel
      | some o =>
        unfold selOf
        rw [hcat, find?_catUpdate_self, hfind]
        simpa [gffSet] using hf
    · unfold selOf at hsel ⊢
      rw [hcat, find?_catUpdate_ne _ (Ne.symm hq)]
      exact hsel
  · by_cases hq : url_portal e.url = p
    · rw [hq] at hov2
      rw [hov] at hov2
      cases hov2
    · unfold selOf at hsel ⊢
      rw [hcat, find?_catUpdate_ne _ (Ne.symm hq)]
      exact hsel

theorem run_sel_keeps_override (hard : List (String × String)) (p hg : String)
    (hov : List.lookup p hard = some hg) :
    ∀ (l : List GffEntry) (st st' : GffScanState), selOf st p = hg →
      annotate_gff hard st l = .ok st' → selOf st' p = hg := by
  intro l
  induction l with
  | nil =>
    intro st st' hsel h
    cases h
    exact hsel
  | cons e rest ih =>
    intro st st' hsel h
    cases hstep : annotate_gff_entry hard st e with
    | error msg =>
      rw [annotate_gff, hstep] at h
      cases h
    | ok st1 =>
      rw [annotate_gff, hstep] at h
      exact ih st1 st'
        (step_sel_keeps_override hard p hg st e st1 hov hsel hstep) h

theorem step_sets_override (hard : List (String × String)) (p hg : String)
    (st : GffScanState) (e : GffEntry) (st' : GffScanState)
    (hov : List.lookup p hard = some hg) (hq : url_portal e.url = p)
    (hp : p ∉ PORTALS_TO_REMOVE) (hf : e.filename = hg)
    (h : annotate_gff_entry hard st e = .ok st') : selOf st' p = hg := by
  unfold annotate_gff_entry at h
  rw [hq] at h
  rw [if_neg hp] at h
  cases hfind : st.catalog.find? p with
  | none =>
    rw [hfind] at h
    cases h
  | some o =>
    simp only [hfind, hov, hf, if_pos] at h
    injection h with h2
    subst h2
    simp [selOf, find?_catUpdate_self, hfind, gffSet, hf]

theorem run_sets_override (hard : List (String × String)) (p hg : String)
    (hov : List.lookup p hard = some hg) (hp : p ∉ PORTALS_TO_REMOVE) :
    ∀ (l : List GffEntry) (st st' : GffScanState),
      (∃ e, e ∈ l ∧ url_portal e.url = p ∧ e.filename = hg) →
      annotate_gff hard st l = .ok st' → selOf st' p = hg := by
  intro l
  induction l with
  | nil =>
    intro st st' hex h
    rcases hex with ⟨e, he, _, _⟩
    cases he
  | cons e rest ih =>
    intro st st' hex h
    cases hstep : annotate_gff_entry hard st e with
    | error msg =>
      rw [annotate_gff, hstep] at h
      cases h
    | ok st1 =>
      rw [annotate_gff, hstep] at h
      rcases hex with ⟨e', he', hq, hf⟩
      rcases List.mem_cons.mp he' with heq | hmem
      · subst heq
        exact run_sel_keeps_override hard p hg hov rest st1 st'
          (step_sets_override hard p hg st e' st1 hov hq hp hf hstep) h
      · exact ih st1 st' ⟨e', hmem, hq, hf⟩ h

/-- C4: for a project `p` with a hardcoded gff override `hg`, the gff pass
(starting from an empty selection) never selects any filename other than
`hg`, and whenever a candidate of `p` with filename `hg` appears anywhere
in the candidate sequence — regardless of other candidates' timestamps or
formats — the selection after the pass is exactly `hg`. -/
theorem hardcoded_override_wins (hard : List (String × String)) (p hg : String)
    (st0 st' : GffScanState) (l : List GffEntry)
    (hov : List.lookup p hard = some hg) (hp : p ∉ PORTALS_TO_REMOVE)
    (h0 : selOf st0 p = "") (h : annotate_gff hard st0 l = .ok st') :
    (selOf st' p = "" ∨ selOf st' p = hg) ∧
    ((∃ e, e ∈ l ∧ url_portal e.url = p ∧ e.filename = hg) →
      selOf st' p = hg) := by
  constructor
  · rcases annotate_gff_run_inv hard p l st0 st' (Or.inl h0) h with h1 | h2
    · exact Or.inl h1
    · exact Or.inr (h2 hg hov)
  · intro hex
    exact run_sets_override hard p hg hov hp l st0 st' hex h

/-- Witness for C4 at a concrete input: the override candidate (older
timestamp) beats a newer non-override `.gff3.gz` candidate. -/
theorem hardcoded_override_wins_witness :
    (selOf wStO "Abcde1" = "" ∨ selOf wStO "Abcde1" = "Abcde1_over.gff3.gz") ∧
    ((∃ e, e ∈ [wO1, wO2] ∧ url_portal e.url = "Abcde1" ∧
        e.filename = "Abcde1_over.gff3.gz") →
      selOf wStO "Abcde1" = "Abcde1_over.gff3.gz") :=
  hardcoded_override_wins wHard "Abcde1" "Abcde1_over.gff3.gz" wSt0 wStO
    [wO1, wO2] (by decide) (by decide) (by decide) (by rfl)

/-! ### Timestamp precedence between same-format candidates -/

theorem gffSet_file (e : GffEntry) (o : JGI_Project) :
    (gffSet e o).gff_file = e.filename := rfl

/-- A candidate that survives every skip condition is folded into the
catalog through the running-best update. -/
theorem step_accept (hard : List (String × String)) (p : String)
    (st : GffScanState) (e : GffEntry) (org : JGI_Project)
    (hq : url_portal e.url = p) (hp : p ∉ PORTALS_TO_REMOVE)
    (hfind : st.catalog.find? p = some org)
    (hov : List.lookup p hard = none)
    (hig : e.filename ∉ IGNORE_GFF_FILENAMES)
    (hkw : gffSkipKeywords e.filename = false)
    (hbs : gffBadSuffix e.filename = false) :
    annotate_gff_entry hard st e =
      .ok { catalog := catUpdate st.catalog p (gffUpdateRule e),
            found := st.found ++ [(p, e.filename, e.timestamp)],
            skipped := st.skipped } := by
  unfold annotate_gff_entry
  rw [hq, if_neg hp]
  simp [hfind, hov, hig, hkw, hbs]

/-- Scanning exactly two accepted `.gff3.gz` candidates from an empty
selection picks the strictly later timestamp, the first on ties. -/
theorem run_two_gff3_sel (hard : List (String × String)) (p : String)
    (st0 : GffScanState) (org : JGI_Project) (e1 e2 : GffEntry)
    (hq1 : url_portal e1.url = p) (hq2 : url_portal e2.url = p)
    (hp : p ∉ PORTALS_TO_REMOVE)
    (hfind : st0.catalog.find? p = some org) (hsel0 : org.gff_file = "")
    (hov : List.lookup p hard = none)
    (hf1 : strEndsWith e1.filename "gff3.gz" = true)
    (hf2 : strEndsWith e2.filename "gff3.gz" = true)
    (hig1 : e1.filename ∉ IGNORE_GFF_FILENAMES)
    (hig2 : e2.filename ∉ IGNORE_GFF_FILENAMES)
    (hkw1 : gffSkipKeywords e1.filename = false)
    (hkw2 : gffSkipKeywords e2.filename = false) :
    (annotate_gff hard st0 [e1, e2]).map (fun s => selOf s p) =
      .ok (if e1.timestamp < e2.timestamp then e2.filename else e1.filename) := by
  have hstep1 := step_accept hard p st0 e1 org hq1 hp hfind hov hig1 hkw1
    (gffBadSuffix_gff3 hf1)
  set st1 : GffScanState :=
    { catalog := catUpdate st0.catalog p (gffUpdateRule e1),
      found := st0.found ++ [(p, e1.filename, e1.timestamp)],
      skipped := st0.skipped } with hst1
  have hfind1 : st1.catalog.find? p = some (gffSet e1 org) := by
    rw [hst1]
    show (catUpdate st0.catalog p (gffUpdateRule e1)).find? p = _
    rw [find?_catUpdate_self, hfind]
    simp [gffUpdateRule_empty e1 org hsel0]
  have hstep2 := step_accept hard p st1 e2 (gffSet e1 org) hq2 hp hfind1 hov
    hig2 hkw2 (gffBadSuffix_gff3 hf2)
  have hrule : gffUpdateRule e2 (gffSet e1 org) =
      if e1.timestamp < e2.timestamp then gffSet e2 (gffSet e1 org)
      else gffSet e1 org := by
    have hr := gffUpdateRule_gff3_gff3 e2 (gffSet e1 org)
      (by simpa [gffSet] using hf1) hf2
    simpa [gffSet] using hr
  simp only [annotate_gff, hstep1, ← hst1, hstep2]
  simp [Except.map, selOf, find?_catUpdate_self, hfind,
    gffUpdateRule_empty e1 org hsel0, hrule, gffSet_file,
    apply_ite (fun o : JGI_Project => o.gff_file)]

/-- C6: for a project whose gene-annotation candidate sequence is exactly
two `.gff3.gz` files not excluded by overrides, the ignore set or the
keyword rules, the selection after the gff pass is the candidate with the
strictly larger timestamp, in both input orders; with equal timestamps the
first-encountered candidate is kept. -/
theorem gff3_timestamp_selection (hard : List (String × String)) (p : String)
    (st0 : GffScanState) (org : JGI_Project) (e1 e2 : GffEntry)
    (hq1 : url_portal e1.url = p) (hq2 : url_portal e2.url = p)
    (hp : p ∉ PORTALS_TO_REMOVE)
    (hfind : st0.catalog.find? p = some org) (hsel0 : org.gff_file = "")
    (hov : List.lookup p hard = none)
    (hf1 : strEndsWith e1.filename "gff3.gz" = true)
    (hf2 : strEndsWith e2.filename "gff3.gz" = true)
    (hig1 : e1.filename ∉ IGNORE_GFF_FILENAMES)
    (hig2 : e2.filename ∉ IGNORE_GFF_FILENAMES)
    (hkw1 : gffSkipKeywords e1.filename = false)
    (hkw2 : gffSkipKeywords e2.filename = false) :
    (e1.timestamp < e2.timestamp →
       (annotate_gff hard st0 [e1, e2]).map (fun s => selOf s p) =
         .ok e2.filename ∧
       (annotate_gff hard st0 [e2, e1]).map (fun s => selOf s p) =
         .ok e2.filename) ∧
    (e1.timestamp = e2.timestamp →
       (annotate_gff hard st0 [e1, e2]).map (fun s => selOf s p) =
         .ok e1.filename) := by
  have h12 := run_two_gff3_sel hard p st0 org e1 e2 hq1 hq2 hp hfind hsel0
    hov hf1 hf2 hig1 hig2 hkw1 hkw2
  have h21 := run_two_gff3_sel hard p st0 org e2 e1 hq2 hq1 hp hfind hsel0
    hov hf2 hf1 hig2 hig1 hkw2 hkw1
  constructor
  · intro hlt
    constructor
    · rw [h12, if_pos hlt]
    · rw [h21, if_neg (lt_asymm hlt)]
  · intro heq
    rw [h12, if_neg (by rw [heq]; exact lt_irrefl _)]

/-- Witness for C6 at a concrete input: candidates with timestamps 5 and
50. -/
theorem gff3_timestamp_selection_witness :
    (wG1.timestamp < wG3.timestamp →
       (annotate_gff [] wSt0 [wG1, wG3]).map (fun s => selOf s "Abcde1") =
         .ok wG3.filename ∧
       (annotate_gff [] wSt0 [wG3, wG1]).map (fun s => selOf s "Abcde1") =
         .ok wG3.filename) ∧
    (wG1.timestamp = wG3.timestamp →
       (annotate_gff [] wSt0 [wG1, wG3]).map (fun s => selOf s "Abcde1") =
         .ok wG1.filename) :=
  gff3_timestamp_selection [] "Abcde1" wSt0 wProj wG1 wG3 (by decide)
    (by decide) (by decide) (by rfl) (by rfl) (by rfl) (by decide) (by decide)
    (by decide) (by decide) (by rfl) (by rfl)

/-! ### Condition 4 lets non-gff `.gz` files through -/

/-- C3 (code-bug evidence): a candidate ending in `.fasta.gz` — with no
override, not ignored, no skip keyword — is NOT skipped by condition 4
(which only rejects `gtf.gz`, `tgz` and non-`gz` endings, despite the
source comment "if the filename doesn't end with gff.gz or gff3.gz,
skip") and becomes the project's annotation selection, even though it ends
in neither `.gff.gz` nor `.gff3.gz`. -/
theorem nongff_candidate_selected :
    (annotate_gff [] wSt0 [wFasta]).map (fun s => selOf s "Abcde1") =
      .ok "Abcde1_GeneCatalog.fasta.gz" ∧
    strEndsWith "Abcde1_GeneCatalog.fasta.gz" "gff.gz" = false ∧
    strEndsWith "Abcde1_GeneCatalog.fasta.gz" "gff3.gz" = false :=
  ⟨by rfl, by decide, by decide⟩

/-! ### Unknown project codes in the three file scans -/

/-- C5 (counterexample): in the gene-annotation scan an entry whose
embedded project code is not a catalog key raises `KeyError`, aborting the
scan — the later well-formed candidate `wG1` is never processed and no
warning-and-skip takes place. -/
theorem unknown_portal_gff_scan_errors :
    annotate_gff [] wSt0 [wUnk, wG1] = .error "KeyError: Mystery1" := by
  rfl

/-- C5 (amended): an entry with an unknown embedded project code is skipped
with a warning — catalog unchanged, no exception — in the unmasked-assembly
scan only; in the masked fallback scan and the gene-annotation scan the
`KeyError` escapes (for a gff entry, unless its code is in
`PORTALS_TO_REMOVE`, which is filtered earlier). -/
theorem unknown_portal_handling :
    (∀ (cat : Catalog) (e : AsmEntry), cat.find? (url_portal e.url) = none →
       annotate_assembly_entry cat e = cat) ∧
    (∀ (cat : Catalog) (e : AsmEntry), cat.find? (url_portal e.url) = none →
       asmExcluded e.filename (url_portal e.url) = false →
       annotate_missing_entry cat e =
         .error ("KeyError: " ++ url_portal e.url)) ∧
    (∀ (hard : List (String × String)) (st : GffScanState) (e : GffEntry),
       st.catalog.find? (url_portal e.url) = none →
       url_portal e.url ∉ PORTALS_TO_REMOVE →
       annotate_gff_entry hard st e =
         .error ("KeyError: " ++ url_portal e.url)) := by
  refine ⟨?_, ?_, ?_⟩
  · intro cat e hnone
    unfold annotate_assembly_entry
    rw [hnone]
    split <;> rfl
  · intro cat e hnone hexcl
    simp [annotate_missing_entry, hnone, hexcl]
  · intro hard st e hnone hp
    unfold annotate_gff_entry
    rw [if_neg hp, hnone]

/-- Witness for the amended C5 at concrete unknown-code entries. -/
theorem unknown_portal_handling_witness :
    annotate_assembly_entry wCat wUnkAsm = wCat ∧
    annotate_missing_entry wCat wUnkAsm = .error "KeyError: Mystery1" ∧
    annotate_gff_entry [] wSt0 wUnk = .error "KeyError: Mystery1" :=
  ⟨unknown_portal_handling.1 wCat wUnkAsm (by rfl),
   unknown_portal_handling.2.1 wCat wUnkAsm (by rfl) (by rfl),
   unknown_portal_handling.2.2 [] wSt0 wUnk (by rfl) (by decide)⟩

/-! ### Missing unmasked-assembly node -/

/-- C2 (counterexample): a portal whose Files subtree lacks the
"Genome Assembly (unmasked)" node makes the whole batch abort with
`ValueError` — the following well-formed portal node is never processed. -/
theorem unmasked_absent_aborts_batch :
    annotate_projects [] wSt0 [wNodeBad, wNodeOK] =
      .error
        "ValueError: Portal Abcde1: Could not find Genome Assembly (unmasked) node." := by
  rfl

/-- C2 (amended): absence of the unmasked-assembly node is fatal — the
resolver raises `ValueError` and the batch stops; only when the unmasked
node exists but its scan leaves the assembly selection empty does the
masked fallback apply, and in that situation a missing masked node is
non-fatal (the portal keeps an empty selection and processing
continues). -/
theorem unmasked_absent_fatal_masked_absent_nonfatal
    (hard : List (String × String)) (st : GffScanState) (node : PortalNode)
    (fs : FilesNode) (um : List AsmEntry) (org : JGI_Project) :
    (node.files = some fs → fs.asm_unmasked = none →
       annotate_portal_node hard st node =
         .error ("ValueError: Portal " ++ node.portal ++
           ": Could not find Genome Assembly (unmasked) node.")) ∧
    (node.files = some fs → fs.asm_unmasked = some um →
       fs.asm_masked = none → fs.genes = none →
       (annotate_assembly st.catalog um).find? node.portal = some org →
       org.assembly_file = "" →
       annotate_portal_node hard st node =
         .ok { st with catalog := annotate_assembly st.catalog um }) := by
  constructor
  · intro hfiles hun
    simp [annotate_portal_node, hfiles, hun]
  · intro hfiles hun hmask hgenes hfind hempty
    simp [annotate_portal_node, hfiles, hun, hmask, hgenes, hfind, hempty]

/-- Witness for the amended C2 at concrete nodes. -/
theorem unmasked_absent_fatal_witness :
    annotate_portal_node [] wSt0 wNodeBad =
      .error
        "ValueError: Portal Abcde1: Could not find Genome Assembly (unmasked) node." ∧
    annotate_portal_node [] wSt0 wNodeOK =
      .ok { wSt0 with catalog := annotate_assembly wSt0.catalog [] } :=
  ⟨(unmasked_absent_fatal_masked_absent_nonfatal [] wSt0 wNodeBad {} []
      wProj).1 (by rfl) (by rfl),
   (unmasked_absent_fatal_masked_absent_nonfatal [] wSt0 wNodeOK
      { asm_unmasked := some [] } [] wProj).2 (by rfl) (by rfl) (by rfl)
      (by rfl) (by rfl) (by rfl)⟩

/-! ### Download-planning accounting -/

/-- In a non-simulate run each file whose download (if attempted) succeeds
adds exactly one to exactly one of the four counters and leaves `needed`
unchanged. -/
theorem process_file_sum (env : FileEnv) (expected : Nat) (st st' : PlanState)
    (hdl : env.download_ok = true)
    (h : process_file false env expected st = .ok st') :
    st'.copied + st'.downloaded + st'.pre_existing + st'.in_previous =
      st.copied + st.downloaded + st.pre_existing + st.in_previous + 1 ∧
    st'.needed = st.needed := by
  unfold process_file at h
  by_cases hpre : preexisting_ok env expected = true
  · rw [if_pos hpre] at h
    injection h with h2
    subst h2
    exact ⟨by simp; omega, rfl⟩
  · rw [if_neg hpre] at h
    by_cases hinp : env.in_previous = true
    · rw [if_pos hinp, if_neg (show ¬ ((false : Bool) = true) by decide)] at h
      by_cases hcp : env.copy_ok = true
      · rw [if_pos hcp] at h
        injection h with h2
        subst h2
        exact ⟨by simp; omega, rfl⟩
      · rw [if_neg hcp] at h
        cases h
    · rw [if_neg hinp, if_neg (show ¬ ((false : Bool) = true) by decide),
        hdl, if_pos rfl] at h
      injection h with h2
      subst h2
      exact ⟨by simp; omega, rfl⟩

theorem process_portal_sum (use_restricted : Bool) (exclude : List String)
    (st : PlanState) (p : PortalPlan) (st' : PlanState)
    (hdl1 : p.asm_env.download_ok = true) (hdl2 : p.gff_env.download_ok = true)
    (hsum : st.copied + st.downloaded + st.pre_existing + st.in_previous =
      st.needed)
    (h : process_portal false use_restricted exclude st p = .ok st') :
    st'.copied + st'.downloaded + st'.pre_existing + st'.in_previous =
      st'.needed := by
  unfold process_portal at h
  split at h
  · cases h
    exact hsum
  · split at h
    · cases h
      exact hsum
    · split at h
      · cases h
        exact hsum
      · cases hstep : process_file false p.asm_env p.fungus.assembly_size
            { st with needed := st.needed + 2 } with
        | error msg =>
          rw [hstep] at h
          cases h
        | ok stA =>
          rw [hstep] at h
          have h1 := process_file_sum p.asm_env p.fungus.assembly_size _ _
            hdl1 hstep
          have h2 := process_file_sum p.gff_env p.fungus.gff_size _ _ hdl2 h
          simp at h1
          omega

theorem download_loop_sum (use_restricted : Bool) (exclude : List String) :
    ∀ (l : List PortalPlan) (st st' : PlanState),
      (∀ p, p ∈ l →
        p.asm_env.download_ok = true ∧ p.gff_env.download_ok = true) →
      st.copied + st.downloaded + st.pre_existing + st.in_previous =
        st.needed →
      download_loop false use_restricted exclude st l = .ok st' →
      st'.copied + st'.downloaded + st'.pre_existing + st'.in_previous =
        st'.needed := by
  intro l
  induction l with
  | nil =>
    intro st st' _ hsum h
    cases h
    exact hsum
  | cons p rest ih =>
    intro st st' hdl hsum h
    cases hstep : process_portal false use_restricted exclude st p with
    | error msg =>
      rw [download_loop, hstep] at h
      cases h
    | ok st1 =>
      rw [download_loop, hstep] at h
      have hd := hdl p (List.mem_cons_self p rest)
      exact ih st1 st' (fun q hq => hdl q (List.mem_cons_of_mem p hq))
        (process_portal_sum use_restricted exclude st p st1 hd.1 hd.2 hsum
          hstep) h

/-- C7 (counterexample): in a simulate run with one well-resolved project
whose two files are neither on disk nor in the prior index, the loop ends
with `needed = 2` while all four counters stay `0`, so their sum is not the
count of needed files. -/
theorem counters_sum_fails_simulate :
    download_loop true false [] {} [wPlanMiss] =
      .ok { needed := 2, copied := 0, downloaded := 0, pre_existing := 0,
            in_previous := 0, actions := [] } ∧
    0 + 0 + 0 + 0 ≠ 2 :=
  ⟨by rfl, by decide⟩

/-- C7 (amended): after the download loop, the four counters
`copied + downloaded + pre_existing + in_previous` sum to `needed` (two per
processed project; projects missing a selection or filtered out contribute
to neither side) on non-simulate runs in which every attempted download
succeeds.  In simulate mode files reaching the fetch branch, and failed
downloads, increment no counter, so in general the sum can fall short of
`needed`. -/
theorem counters_sum_nonsimulate (use_restricted : Bool)
    (exclude : List String) (ps : List PortalPlan) (st' : PlanState)
    (hdl : ∀ p, p ∈ ps →
      p.asm_env.download_ok = true ∧ p.gff_env.download_ok = true)
    (h : download_loop false use_restricted exclude {} ps = .ok st') :
    st'.copied + st'.downloaded + st'.pre_existing + st'.in_previous =
      st'.needed :=
  download_loop_sum use_restricted exclude ps {} st' hdl (by rfl) h

/-- Witness for the amended C7: a pre-existing assembly plus a downloaded
gff give 1 + 1 = 2 = needed. -/
theorem counters_sum_nonsimulate_witness :
    wPlanOut.copied + wPlanOut.downloaded + wPlanOut.pre_existing +
      wPlanOut.in_previous = wPlanOut.needed :=
  counters_sum_nonsimulate false [] [wPlanPre] wPlanOut (by decide) (by rfl)

/-! ### The 90% pre-existing threshold -/

/-- C8 (counterexample): a file on disk at exactly 90% of the expected size
(9 bytes of 10) is NOT classified pre-existing — the code's strict
`st_size > 0.9 * expected` fails at the boundary — and a transfer call is
made for it instead (`pre_existing` stays 0, a `downloadFile` action is
logged). -/
theorem ninety_percent_boundary_downloads :
    10 * 9 ≥ 9 * 10 ∧
    process_file false { on_disk_size := some 9 } 10 {} =
      .ok { needed := 0, copied := 0, downloaded := 1, pre_existing := 0,
            in_previous := 0, actions := [.downloadFile] } :=
  ⟨by decide, by rfl⟩

/-- C8 (amended): a file already on disk at STRICTLY MORE than 90% of the
recorded expected size is classified pre-existing: the counter is
incremented and no copy-from-prior and no download call is made (the
action log is unchanged). -/
theorem preexisting_skips_transfer (simulate : Bool) (env : FileEnv)
    (expected : Nat) (st : PlanState) (sz : Nat)
    (h1 : env.on_disk_size = some sz) (h2 : 9 * expected < 10 * sz) :
    process_file simulate env expected st =
      .ok { st with pre_existing := st.pre_existing + 1 } := by
  have hpre : preexisting_ok env expected = true := by
    simp [preexisting_ok, h1, h2]
  unfold process_file
  rw [if_pos hpre]

/-- Witness for the amended C8 at a concrete input. -/
theorem preexisting_skips_transfer_witness :
    process_file false { on_disk_size := some 10 } 10 {} =
      .ok { pre_existing := 1 } :=
  preexisting_skips_transfer false { on_disk_size := some 10 } 10 {} 10
    (by rfl) (by decide)

/-! ### Organism names and version stripping -/

/-- C9 (counterexample): for portal "Boledp1" the display name comes from
the manual override table, but `org_name` is computed from the raw CSV name
column, so `organismName` is NOT the display name with its version token
removed. -/
theorem org_name_override_mismatch :
    (build_project wRow).name = "Boletus edulis Přilba v1.0" ∧
    (build_project wRow).org_name = some "Boletus edulis Prilba" ∧
    remove_version ((build_project wRow).name) =
      some "Boletus edulis Přilba" ∧
    (build_project wRow).org_name ≠ remove_version ((build_project wRow).name) :=
  ⟨by rfl, by rfl, by rfl, by decide⟩

/-- C9 (amended): `organismName` is the RAW tabular name column with the
trailing version token removed (`remove_version(fullname)`), so for every
project without a manual display-name override it equals the display name
stripped of its version token; for overridden projects it is derived from
the raw CSV name, not from the override. -/
theorem org_name_from_raw_csv_name (row : CsvRow)
    (hnov : List.lookup row.portal MANUAL_PROJECT_NAMES = none) :
    (build_project row).org_name = remove_version row.name ∧
    (build_project row).org_name =
      remove_version ((build_project row).name) := by
  unfold build_project
  rw [hnov]
  exact ⟨rfl, rfl⟩

/-- Witness for the amended C9 at a concrete non-overridden row. -/
theorem org_name_from_raw_csv_name_witness :
    (build_project wRowPlain).org_name = remove_version wRowPlain.name ∧
    (build_project wRowPlain).org_name =
      remove_version ((build_project wRowPlain).name) :=
  org_name_from_raw_csv_name wRowPlain (by rfl)

/-- C10 (counterexample): the label "Foo x" has a one-character last token
(fewer than 2 characters), yet `remove_version` returns normally instead
of raising `IndexError`, because Python's `and` short-circuits:
`suffix[1]` is evaluated only when `suffix[0]` is 'v' or 'V'. -/
theorem remove_version_short_token_returns :
    lastToken "Foo x" = ['x'] ∧ remove_version "Foo x" = some "Foo x" :=
  ⟨by rfl, by rfl⟩

/-- C10 (amended): `remove_version` raises `IndexError` exactly when the
stripped label's last space-delimited token is empty (empty or
whitespace-only label) or is the single character 'v' or 'V'; every other
label — including one with a one-character last token other than
'v'/'V' — returns a string normally. -/
theorem remove_version_none_iff (label : String) :
    remove_version label = none ↔
      lastToken label = [] ∨ lastToken label = ['v'] ∨
        lastToken label = ['V'] := by
  unfold remove_version lastToken
  rcases h : (splitOnChar ' ' (pyStrip label.toList)).getLastD [] with
    _ | ⟨c, _ | ⟨c1, rest⟩⟩
  · simp [h]
  · by_cases hv : c = 'v'
    · simp [h, hv]
    · by_cases hV : c = 'V'
      · simp [h, hV]
      · simp [h, hv, hV]
  · simp only [h]
    split <;> simp

end MGD
